import Mathlib

set_option maxRecDepth 100000

/-!
Verification of the lateral planner (`selfdrive/controls/lib/lateral_planner.py`)
against its natural-language specification.

All floating-point quantities of the source are modelled as exact rationals
(`ℚ`); NaN-ness of the solver output is modelled as an explicit boolean flag
since rationals have no NaN.  The update method is embedded as a family of
pure step functions over explicit state records, one per sequential slice of
`LateralPlanner.update`:
  * `laneChangeUpdate`  — the "Comma stock" lane-change state machine
    (lines 204-270 of the source);
  * `arbiterStep`       — the lane/laneless mode arbiter elif-chain
    (lines 278-337);
  * `curvaturePost`     — the curvature post-processing and rate limiting
    (lines 356-378);
  * `mpcPostCheck`      — the infeasibility check and reseeding
    (lines 350-354, 380-394);
  * `paramPollStep`     — the ≈1 Hz parameter-store re-read (lines 112-116).
-/

/-! ## Helpers modelled from the spec

`interp` and `clip` live in `common/numpy_fast.py`, and `DT_MDL` in
`common/realtime.py`; these files are not part of the sources here.
Modelled from the spec: `interp` is piecewise-linear interpolation clamped at
the ends ("linear_interp", "piecewise-linear (v_ego, rate) ... clamped at the
ends"), `clip` saturates to a closed interval, and `ΔT = 0.05 s`. -/

/-- Modelled from the spec: the model frame period `ΔT` (`DT_MDL` of
`common/realtime.py`), 0.05 s. -/
def DT_MDL : ℚ := 1 / 20

/-- Modelled from the spec: saturation to an interval (`clip` of
`common/numpy_fast.py`). -/
def clip (x lo hi : ℚ) : ℚ := max lo (min hi x)

/-- Linear interpolation on one segment. -/
def interpSeg (x x0 y0 x1 y1 : ℚ) : ℚ := y0 + (x - x0) * (y1 - y0) / (x1 - x0)

/-- Modelled from the spec: piecewise-linear interpolation through a list of
breakpoints, clamped at both ends (`interp` of `common/numpy_fast.py`,
spec "linear_interp ... clamped at the ends"). -/
def interp (x : ℚ) : List (ℚ × ℚ) → ℚ
  | [] => 0
  | [(_, y)] => y
  | (x0, y0) :: (x1, y1) :: rest =>
    if x ≤ x0 then y0
    else if x ≤ x1 then interpSeg x x0 y0 x1 y1
    else interp x ((x1, y1) :: rest)

/-! ## Data model: enums from `cereal.log.LateralPlan` -/

/-- The lane-change states (`log.LateralPlan.LaneChangeState`). -/
inductive LaneChangeState
  | off
  | preLaneChange
  | laneChangeStarting
  | laneChangeFinishing
  deriving DecidableEq, Repr

/-- The lane-change directions (`log.LateralPlan.LaneChangeDirection`). -/
inductive LaneChangeDirection
  | none
  | left
  | right
  deriving DecidableEq, Repr

/-- The high-level desires (`log.LateralPlan.Desire`), restricted to the
values the planner emits. -/
inductive Desire
  | none
  | laneChangeLeft
  | laneChangeRight
  deriving DecidableEq, Repr

/-- The `DESIRES` lookup table (lines 26-45 of the source):
`DESIRES[direction][state]`. -/
def DESIRES (d : LaneChangeDirection) (s : LaneChangeState) : Desire :=
  match d, s with
  | .none, _ => .none
  | .left, .off => .none
  | .left, .preLaneChange => .none
  | .left, .laneChangeStarting => .laneChangeLeft
  | .left, .laneChangeFinishing => .laneChangeLeft
  | .right, .off => .none
  | .right, .preLaneChange => .none
  | .right, .laneChangeStarting => .laneChangeRight
  | .right, .laneChangeFinishing => .laneChangeRight

/-! ## Lane-change state machine (the "Comma stock logic", lines 204-270) -/

/-- Planner configuration relevant to the lane-change machine:
`LANE_CHANGE_SPEED_MIN` (module constant, line 20), the auto-delay seconds
(`self.lane_change_auto_delay`, lines 65-67) and `CP.steerMaxV[0]`. -/
structure LCConfig where
  min_speed : ℚ
  auto_delay : ℚ
  steerMaxV : ℚ
  deriving DecidableEq, Repr

/-- Mutable planner state touched by the lane-change logic. -/
structure LCState where
  state : LaneChangeState
  direction : LaneChangeDirection
  wait_timer : ℚ
  ll_prob : ℚ
  timer : ℚ
  prev_one_blinker : Bool
  deriving DecidableEq, Repr

/-- The planner's state at construction (`__init__`, lines 69-74). -/
def initLCState : LCState :=
  { state := .off
    direction := .none
    wait_timer := 0
    ll_prob := 1
    timer := 0
    prev_one_blinker := false }

/-- Per-frame inputs read by the lane-change logic (`sm['carState']`,
`sm['controlsState'].active`, the lateral-control output magnitude, and
`LP.l_lane_change_prob + LP.r_lane_change_prob`). -/
structure LCInputs where
  active : Bool
  v_ego : ℚ
  leftBlinker : Bool
  rightBlinker : Bool
  steeringPressed : Bool
  steeringTorque : ℚ
  leftBlindspot : Bool
  rightBlindspot : Bool
  output_scale : ℚ
  lane_change_prob : ℚ
  deriving DecidableEq, Repr

/-- `self.lane_change_adjust` interpolated over `self.lane_change_adjust_vel`
(lines 83-84, used at line 245): the ll_prob fade-out rate as a function of
ego speed. -/
def fadeRate (v : ℚ) : ℚ :=
  interp v [(83/10, 1/10), (16, 17/100), (22, 7/10), (30, 12/10)]

/-- The `LaneChangeState.off` branch (lines 214-217): a fresh single blinker
above the minimum speed enters `preLaneChange` and resets `ll_prob` and the
wait timer. -/
def lcOffStep (cfg : LCConfig) (s : LCState) (i : LCInputs)
    (one_blinker : Bool) : LCState :=
  if one_blinker ∧ ¬ s.prev_one_blinker ∧ ¬ (i.v_ego < cfg.min_speed) then
    { s with state := .preLaneChange, ll_prob := 1, wait_timer := 0 }
  else s

/-- The `LaneChangeState.preLaneChange` branch (lines 220-240): increment the
wait timer, set the direction from the blinkers, then transition on blinker
loss, driver torque or elapsed auto delay (`self.lane_change_auto_delay` is
float-truthy, i.e. the auto path needs it nonzero). -/
def lcPreStep (cfg : LCConfig) (s : LCState) (i : LCInputs)
    (one_blinker : Bool) : LCState :=
  let wait := s.wait_timer + DT_MDL
  let dir : LaneChangeDirection :=
    if i.leftBlinker then .left
    else if i.rightBlinker then .right
    else .none
  let torque_applied :=
    i.steeringPressed ∧
      ((i.steeringTorque > 0 ∧ dir = .left) ∨
       (i.steeringTorque < 0 ∧ dir = .right))
  let blindspot_detected :=
    (i.leftBlindspot ∧ dir = .left) ∨ (i.rightBlindspot ∧ dir = .right)
  let st : LaneChangeState :=
    if ¬ one_blinker ∨ i.v_ego < cfg.min_speed then .off
    else if ¬ blindspot_detected ∧
        (torque_applied ∨ (cfg.auto_delay ≠ 0 ∧ wait > cfg.auto_delay)) then
      .laneChangeStarting
    else .preLaneChange
  { s with state := st, direction := dir, wait_timer := wait }

/-- The `LaneChangeState.laneChangeStarting` branch (lines 243-251): fade
`ll_prob` down at the speed-dependent rate, move on once the vision hint and
`ll_prob` are both small. -/
def lcStartingStep (s : LCState) (i : LCInputs) : LCState :=
  let ll := max (s.ll_prob - fadeRate i.v_ego * DT_MDL) 0
  let st : LaneChangeState :=
    if i.lane_change_prob < 1/50 ∧ ll < 1/100 then .laneChangeFinishing
    else .laneChangeStarting
  { s with state := st, ll_prob := ll }

/-- The `LaneChangeState.laneChangeFinishing` branch (lines 254-260): fade
`ll_prob` back up; above 0.99 return to `preLaneChange` if a blinker is still
on, else to `off` (the direction is left untouched). -/
def lcFinishingStep (s : LCState) (one_blinker : Bool) : LCState :=
  let ll := min (s.ll_prob + DT_MDL) 1
  let st : LaneChangeState :=
    if one_blinker ∧ ll > 99/100 then .preLaneChange
    else if ll > 99/100 then .off
    else .laneChangeFinishing
  { s with state := st, ll_prob := ll }

/-- One step of the lane-change state machine: lines 206-268 of
`LateralPlanner.update` (the live "Comma stock" branch, not the commented-out
alternate).  The global abort (line 209) is checked first; then the
state-specific rules; then the lane-change timer is reset or incremented and
the previous-blinker flag recorded. -/
def laneChangeUpdate (cfg : LCConfig) (s : LCState) (i : LCInputs) : LCState :=
  let one_blinker : Bool := i.leftBlinker != i.rightBlinker
  let s1 : LCState :=
    if ¬ i.active ∨ s.timer > 10 ∨
        (|i.output_scale| ≥ cfg.steerMaxV - 3/20 ∧ s.timer > 1) then
      { s with state := .off, direction := .none }
    else
      match s.state with
      | .off => lcOffStep cfg s i one_blinker
      | .preLaneChange => lcPreStep cfg s i one_blinker
      | .laneChangeStarting => lcStartingStep s i
      | .laneChangeFinishing => lcFinishingStep s one_blinker
  { s1 with
    timer := if s1.state = .off ∨ s1.state = .preLaneChange then 0
             else s1.timer + DT_MDL
    prev_one_blinker := one_blinker }

/-- The desire published after a step (line 270):
`DESIRES[self.lane_change_direction][self.lane_change_state]`. -/
def desireOf (s : LCState) : Desire := DESIRES s.direction s.state

/-- Folding the step over a list of per-frame inputs. -/
def runLC (cfg : LCConfig) (s : LCState) (l : List LCInputs) : LCState :=
  l.foldl (laneChangeUpdate cfg) s

/-! ## Mode arbiter (lines 278-337) -/

/-- The path the MPC is given: the lane-line-blended `get_d_path` result or
the raw model path. -/
inductive PathChoice
  | lane
  | raw
  deriving DecidableEq, Repr

/-- Mutable planner state touched by the arbiter (`__init__`, lines 60-63). -/
structure ArbState where
  laneless_mode_status : Bool
  laneless_mode_status_buffer : Bool
  laneless_mode_at_stopping : Bool
  laneless_mode_at_stopping_timer : ℤ
  deriving DecidableEq, Repr

/-- The arbiter state at construction. -/
def initArbState : ArbState :=
  { laneless_mode_status := false
    laneless_mode_status_buffer := false
    laneless_mode_at_stopping := false
    laneless_mode_at_stopping_timer := 0 }

/-- Per-frame inputs read by the arbiter elif-chain: configuration flags,
radar lead, ego speed, steering angles, the lane-change state and the
(possibly lane-change-scaled) lane-line probabilities. -/
structure ArbInputs where
  use_lanelines : Bool
  laneless_mode : ℤ
  dRel : ℚ
  vRel : ℚ
  v_ego : ℚ
  steeringAngleDesiredDeg : ℚ
  steeringAngleDeg : ℚ
  lane_change_state : LaneChangeState
  lll_prob : ℚ
  rll_prob : ℚ
  deriving DecidableEq, Repr

/-- The guard of the stopping-lead laneless branch (lines 287-288):
`dRel < 25 and (vRel < 0 or (vRel >= 0 and v_ego < 5)) and
(abs(steeringAngleDesiredDeg) - abs(steeringAngleDeg)) > 2 and
lane_change_state == off`. -/
def leadBranchCond (i : ArbInputs) : Prop :=
  i.dRel < 25 ∧ (i.vRel < 0 ∨ (i.vRel ≥ 0 ∧ i.v_ego < 5)) ∧
    |i.steeringAngleDesiredDeg| - |i.steeringAngleDeg| > 2 ∧
    i.lane_change_state = .off

instance (i : ArbInputs) : Decidable (leadBranchCond i) := by
  unfold leadBranchCond; infer_instance

/-- One step of the mode arbiter: the elif-chain of lines 278-334 followed by
the stopping-timer decrement of lines 336-337.  Returns the chosen path and
the updated arbiter state.  (The MPC cost weights set alongside each branch
are not modelled; `laneless_mode_status` records which weight set was
pushed.) -/
def arbiterStep (s : ArbState) (i : ArbInputs) : PathChoice × ArbState :=
  let r : PathChoice × ArbState :=
    if i.use_lanelines then
      (.lane, { s with laneless_mode_status := false })
    else if i.laneless_mode = 0 then
      (.lane, { s with laneless_mode_status := false })
    else if leadBranchCond i then
      (.raw, { s with laneless_mode_status := true
                      laneless_mode_at_stopping := true
                      laneless_mode_at_stopping_timer := 60 })
    else if s.laneless_mode_at_stopping ∧
        (i.v_ego < 1/2 ∨ s.laneless_mode_at_stopping_timer ≤ 0) then
      (.lane, { s with laneless_mode_status := false
                       laneless_mode_at_stopping := false })
    else if i.laneless_mode = 1 then
      (.raw, { s with laneless_mode_status := true })
    else if i.laneless_mode = 2 ∧ (i.lll_prob + i.rll_prob) / 2 < 1/5 ∧
        i.lane_change_state = .off then
      (.raw, { s with laneless_mode_status := true
                      laneless_mode_status_buffer := true })
    else if i.laneless_mode = 2 ∧ (i.lll_prob + i.rll_prob) / 2 > 2/5 ∧
        s.laneless_mode_status_buffer ∧ ¬ s.laneless_mode_at_stopping ∧
        i.lane_change_state = .off then
      (.lane, { s with laneless_mode_status := false
                       laneless_mode_status_buffer := false })
    else if i.laneless_mode = 2 ∧ s.laneless_mode_status_buffer ∧
        i.lane_change_state = .off then
      (.raw, { s with laneless_mode_status := true })
    else
      (.lane, { s with laneless_mode_status := false
                       laneless_mode_status_buffer := false })
  (r.1,
    { r.2 with
      laneless_mode_at_stopping_timer :=
        if r.2.laneless_mode_at_stopping_timer > 0 then
          r.2.laneless_mode_at_stopping_timer - 1
        else r.2.laneless_mode_at_stopping_timer })

/-! ## Curvature post-processing (lines 356-378) -/

/-- `MAX_CURVATURE_RATES` interpolated over `MAX_CURVATURE_RATE_SPEEDS`
(lines 23-24, used at line 372). -/
def maxCurvatureRate (v : ℚ) : ℚ :=
  interp v [(0, 3762194918267951/100000000000000000),
            (35, 3441203371932992/1000000000000000000)]

/-- The four curvature outputs of one update step. -/
structure CurvOut where
  desired_curvature : ℚ
  desired_curvature_rate : ℚ
  safe_desired_curvature : ℚ
  safe_desired_curvature_rate : ℚ
  deriving DecidableEq, Repr

/-- Curvature post-processing, lines 356-378: delay compensation through the
ψ linearization, then the speed-dependent rate-limit clamps.  `psi` and
`cur` are `interp(delay, t_idxs, solution.psi)` and `solution.curvature[0]`,
`rate` is `solution.curvature_rate[0]` — solver outputs are inputs here.
`safe_prev` is `self.safe_desired_curvature` held from the previous step. -/
def curvaturePost (v_ego delay psi cur rate safe_prev : ℚ) : CurvOut :=
  let curvature_diff_from_psi := psi / (max v_ego (1/10) * delay) - cur
  let next_curvature := cur + 2 * curvature_diff_from_psi
  let mcr := maxCurvatureRate v_ego
  { desired_curvature := next_curvature
    desired_curvature_rate := rate
    safe_desired_curvature_rate := clip rate (-mcr) mcr
    safe_desired_curvature :=
      clip next_curvature (safe_prev - mcr / DT_MDL) (safe_prev + mcr / DT_MDL) }

/-! ## MPC infeasibility check (lines 350-354, 380-394) -/

/-- Result of the per-step feasibility bookkeeping: the updated
`solution_invalid_cnt`, the seed curvature left in `cur_state` for the next
step, and whether `libmpc.init()` was re-called. -/
structure MpcCheck where
  solution_invalid_cnt : ℕ
  seed_curvature : ℚ
  reinit : Bool
  deriving DecidableEq, Repr

/-- Lines 350-354 and 380-394 of `update`: the seed curvature is first set to
`interp(DT_MDL, t_idxs, solution.curvature)` (passed in as `seed_interp`);
if any solution curvature is NaN (`hasNan`, modelled as a flag since `ℚ` has
no NaN) the solver is reinitialized and the seed overwritten with the
measured curvature; the invalid counter increments when `cost > 20000.` or
NaN, else resets to 0. -/
def mpcPostCheck (cnt : ℕ) (seed_interp : ℚ) (hasNan : Bool) (cost : ℚ)
    (measured : ℚ) : MpcCheck :=
  { solution_invalid_cnt := if cost > 20000 ∨ hasNan then cnt + 1 else 0
    seed_curvature := if hasNan then measured else seed_interp
    reinit := hasNan }

/-- `plan_solution_valid` as published (line 397 / 411):
`solution_invalid_cnt < 3`. -/
def mpcSolutionValid (cnt : ℕ) : Bool := cnt < 3

/-! ## Parameter-store polling (lines 20, 59, 111-116) -/

/-- The parameter-store values visible to the planner. -/
structure ParamStore where
  endToEndToggle : Bool
  lanelessMode : ℤ
  opkrLaneChangeSpeed : ℤ
  deriving DecidableEq, Repr

/-- Modelled from the spec: `CV.KPH_TO_MS` of `selfdrive/config.py`
("integer km/h → min_speed_m_s via unit conversion"), i.e. multiplication
by 1000/3600. -/
def kphToMs (k : ℤ) : ℚ := (k : ℚ) * (5 / 18)

/-- Planner state touched by the polling logic: the 1 Hz accumulator
`self.second`, the two values refreshed by lines 113-116, and the
module-level constant `LANE_CHANGE_SPEED_MIN` (line 20), which is read once
at import time and carried along unchanged. -/
structure PollState where
  second : ℚ
  use_lanelines : Bool
  laneless_mode : ℤ
  min_speed : ℚ
  deriving DecidableEq, Repr

/-- The planner's polling state right after import and construction: the
module constant is `int(Params().get("OpkrLaneChangeSpeed")) * CV.KPH_TO_MS`
and `laneless_mode` is read once in `__init__` (line 59). -/
def initPollState (p : ParamStore) (use_lanelines : Bool) : PollState :=
  { second := 0
    use_lanelines := use_lanelines
    laneless_mode := p.lanelessMode
    min_speed := kphToMs p.opkrLaneChangeSpeed }

/-- Lines 112-116 of `update`: `self.second += DT_MDL`; once it exceeds 1 s,
`use_lanelines` and `laneless_mode` are re-read from the store and the
accumulator resets.  Nothing re-reads `OpkrLaneChangeSpeed`. -/
def paramPollStep (p : ParamStore) (s : PollState) : PollState :=
  let second := s.second + DT_MDL
  if second > 1 then
    { second := 0
      use_lanelines := !p.endToEndToggle
      laneless_mode := p.lanelessMode
      min_speed := s.min_speed }
  else
    { s with second := second }

/-! ## Concrete scenario inputs -/

/-- Scenario configuration of spec §8: `min_speed_m_s = 8.33`,
`auto_delay_s = 0.2`, `CP.steerMaxV[0] = 1`. -/
def cfgBlink : LCConfig := { min_speed := 833/100, auto_delay := 1/5, steerMaxV := 1 }

/-- Scenario 2 inputs: engaged at 20 m/s with the left blinker on and no
driver torque, blindspot or vision lane-change hint. -/
def blinkLeft20 : LCInputs :=
  { active := true
    v_ego := 20
    leftBlinker := true
    rightBlinker := false
    steeringPressed := false
    steeringTorque := 0
    leftBlindspot := false
    rightBlindspot := false
    output_scale := 0
    lane_change_prob := 0 }

/-- Scenario 3 inputs: as scenario 2 but at the constant 16 m/s the fade is
evaluated at. -/
def blinkLeft16 : LCInputs := { blinkLeft20 with v_ego := 16 }

/-- Scenario-6 arbiter inputs with `laneless_mode = 0`: lead at 10 m closing
at 2 m/s, desired steering angle 3° against 0° measured, lane-change off. -/
def leadInputsMode0 : ArbInputs :=
  { use_lanelines := false
    laneless_mode := 0
    dRel := 10
    vRel := -2
    v_ego := 1
    steeringAngleDesiredDeg := 3
    steeringAngleDeg := 0
    lane_change_state := .off
    lll_prob := 1/2
    rll_prob := 1/2 }

/-- The same lead scenario with `laneless_mode = 1` (a mode in which the lead
branch is reachable). -/
def leadInputsMode1 : ArbInputs := { leadInputsMode0 with laneless_mode := 1 }

/-- Follow-up arbiter inputs: the steering divergence is gone and the ego
rolls at 4 m/s, so neither the lead branch nor the `v_ego < 0.5` return
fires while the stopping timer counts down. -/
def noLeadMode1 : ArbInputs :=
  { leadInputsMode1 with steeringAngleDesiredDeg := 0, v_ego := 4 }

/-- Final arbiter inputs: divergence gone and `v_ego = 0.4 < 0.5`. -/
def slowNoLead : ArbInputs := { noLeadMode1 with v_ego := 2/5 }

/-- Arbiter state right after the laneless kick-in step. -/
def arbAfterKick : ArbState := (arbiterStep initArbState leadInputsMode1).2

/-- Arbiter state after 59 further steps without the lead branch: the
stopping timer has counted down from 59 to 0. -/
def arbAfterCountdown : ArbState :=
  (fun s => (arbiterStep s noLeadMode1).2)^[59] arbAfterKick

/-- Arbiter inputs where the spec's reading `|desired − measured| > 2` holds
(`|0 − 3| = 3`) but the code's `abs(desired) - abs(measured) > 2` fails
(`0 − 3 = −3`), with all other lead-branch conditions satisfied. -/
def divergeClaimOnly : ArbInputs :=
  { leadInputsMode1 with steeringAngleDesiredDeg := 0, steeringAngleDeg := 3 }

/-- Arbiter inputs exercising the stopped-lead disjunct: lead at 20 m with
`vRel = 1 ≥ 0` and `v_ego = 3 < 5`, divergence `|5| − |1| = 4 > 2`. -/
def stoppedLeadInputs : ArbInputs :=
  { use_lanelines := false
    laneless_mode := 2
    dRel := 20
    vRel := 1
    v_ego := 3
    steeringAngleDesiredDeg := 5
    steeringAngleDeg := 1
    lane_change_state := .off
    lll_prob := 1/2
    rll_prob := 1/2 }

/-- Parameter store at startup: `OpkrLaneChangeSpeed = 30` km/h. -/
def store0 : ParamStore :=
  { endToEndToggle := false, lanelessMode := 0, opkrLaneChangeSpeed := 30 }

/-- Parameter store after the user edits all three polled keys. -/
def store1 : ParamStore :=
  { endToEndToggle := true, lanelessMode := 2, opkrLaneChangeSpeed := 20 }

/-- Polling state one frame before the 1 s accumulator fires, startup values
from `store0`. -/
def pollReady : PollState := { initPollState store0 true with second := 1 }


/-- A mid-fade-in state: finishing a left lane change with `ll_prob = 0.97`
and half a second on the lane-change timer. -/
def finishingLeft : LCState :=
  { state := .laneChangeFinishing
    direction := .left
    wait_timer := 0
    ll_prob := 97/100
    timer := 1/2
    prev_one_blinker := true }

/-- Inputs with both blinkers off (otherwise as the blinker scenario). -/
def quietInputs : LCInputs := { blinkLeft20 with leftBlinker := false }

/-! ## Helper lemmas -/

theorem interpSeg_nonneg {x x0 y0 x1 y1 : ℚ} (h0 : 0 ≤ y0) (h1 : 0 ≤ y1)
    (hx0 : x0 ≤ x) (hx1 : x ≤ x1) (hlt : x0 < x1) :
    0 ≤ interpSeg x x0 y0 x1 y1 := by
  unfold interpSeg
  have hd : (0:ℚ) < x1 - x0 := by linarith
  rcases le_total y0 y1 with h | h
  · have : 0 ≤ (x - x0) * (y1 - y0) / (x1 - x0) :=
      div_nonneg (mul_nonneg (by linarith) (by linarith)) hd.le
    linarith
  · have hkey : (x1 - x0) * (y1 - y0) ≤ (x - x0) * (y1 - y0) := by nlinarith
    have h2 : (x1 - x0) * (y1 - y0) / (x1 - x0) ≤ (x - x0) * (y1 - y0) / (x1 - x0) :=
      (div_le_div_iff_of_pos_right hd).mpr hkey
    rw [mul_div_cancel_left₀ _ (ne_of_gt hd)] at h2
    linarith

theorem interpSeg_pos {x x0 y0 x1 y1 : ℚ} (h0 : 0 < y0) (h1 : 0 < y1)
    (hx0 : x0 ≤ x) (hx1 : x ≤ x1) (hlt : x0 < x1) :
    0 < interpSeg x x0 y0 x1 y1 := by
  unfold interpSeg
  have hd : (0:ℚ) < x1 - x0 := by linarith
  rcases le_total y0 y1 with h | h
  · have : 0 ≤ (x - x0) * (y1 - y0) / (x1 - x0) :=
      div_nonneg (mul_nonneg (by linarith) (by linarith)) hd.le
    linarith
  · have hkey : (x1 - x0) * (y1 - y0) ≤ (x - x0) * (y1 - y0) := by nlinarith
    have h2 : (x1 - x0) * (y1 - y0) / (x1 - x0) ≤ (x - x0) * (y1 - y0) / (x1 - x0) :=
      (div_le_div_iff_of_pos_right hd).mpr hkey
    rw [mul_div_cancel_left₀ _ (ne_of_gt hd)] at h2
    linarith

theorem fadeRate_nonneg (v : ℚ) : 0 ≤ fadeRate v := by
  unfold fadeRate
  simp only [interp]
  rcases le_or_lt v (83/10) with h1 | h1
  · rw [if_pos h1]; norm_num
  · rw [if_neg (not_le.mpr h1)]
    rcases le_or_lt v 16 with h2 | h2
    · rw [if_pos h2]
      exact interpSeg_nonneg (by norm_num) (by norm_num) h1.le h2 (by norm_num)
    · rw [if_neg (not_le.mpr h2), if_neg (not_le.mpr h2)]
      rcases le_or_lt v 22 with h3 | h3
      · rw [if_pos h3]
        exact interpSeg_nonneg (by norm_num) (by norm_num) h2.le h3 (by norm_num)
      · rw [if_neg (not_le.mpr h3), if_neg (not_le.mpr h3)]
        rcases le_or_lt v 30 with h4 | h4
        · rw [if_pos h4]
          exact interpSeg_nonneg (by norm_num) (by norm_num) h3.le h4 (by norm_num)
        · rw [if_neg (not_le.mpr h4)]; norm_num

theorem maxCurvatureRate_pos (v : ℚ) : 0 < maxCurvatureRate v := by
  unfold maxCurvatureRate
  simp only [interp]
  rcases le_or_lt v 0 with h1 | h1
  · rw [if_pos h1]; norm_num
  · rw [if_neg (not_le.mpr h1)]
    rcases le_or_lt v 35 with h2 | h2
    · rw [if_pos h2]
      exact interpSeg_pos (by norm_num) (by norm_num) h1.le h2 (by norm_num)
    · rw [if_neg (not_le.mpr h2)]; norm_num

theorem lo_le_clip (x lo hi : ℚ) : lo ≤ clip x lo hi := le_max_left _ _

theorem clip_le_hi (x lo hi : ℚ) (h : lo ≤ hi) : clip x lo hi ≤ hi :=
  max_le h (min_le_left _ _)

theorem fade_down_le_one {ll f : ℚ} (h1 : ll ≤ 1) (hf : 0 ≤ f) :
    max (ll - f) 0 ≤ 1 :=
  max_le (by linarith) (by norm_num)

theorem fade_up_nonneg {ll d : ℚ} (h0 : 0 ≤ ll) (hd : 0 ≤ d) :
    0 ≤ min (ll + d) 1 :=
  le_min (by linarith) (by norm_num)

/-- A single lane-change step keeps `ll_prob` inside `[0, 1]`. -/
theorem laneChangeUpdate_ll_prob_mem (cfg : LCConfig) (s : LCState) (i : LCInputs)
    (h0 : 0 ≤ s.ll_prob) (h1 : s.ll_prob ≤ 1) :
    0 ≤ (laneChangeUpdate cfg s i).ll_prob ∧ (laneChangeUpdate cfg s i).ll_prob ≤ 1 := by
  have hdt : (0:ℚ) < DT_MDL := by norm_num [DT_MDL]
  have hf : 0 ≤ fadeRate i.v_ego * DT_MDL :=
    mul_nonneg (fadeRate_nonneg i.v_ego) hdt.le
  unfold laneChangeUpdate lcOffStep lcPreStep lcStartingStep lcFinishingStep
  cases hst : s.state <;>
    dsimp only <;>
    split_ifs <;>
    refine ⟨?_, ?_⟩ <;>
    first
      | exact h0
      | exact h1
      | exact le_max_right _ _
      | exact min_le_right _ _
      | exact fade_down_le_one h1 hf
      | exact fade_up_nonneg h0 hdt.le
      | norm_num

/-- The `[0, 1]` bound is preserved along any run. -/
theorem runLC_ll_prob_mem (cfg : LCConfig) (l : List LCInputs) (s : LCState)
    (h0 : 0 ≤ s.ll_prob) (h1 : s.ll_prob ≤ 1) :
    0 ≤ (runLC cfg s l).ll_prob ∧ (runLC cfg s l).ll_prob ≤ 1 := by
  induction l generalizing s with
  | nil => exact ⟨h0, h1⟩
  | cons a t ih =>
    have hstep := laneChangeUpdate_ll_prob_mem cfg s a h0 h1
    exact ih (laneChangeUpdate cfg s a) hstep.1 hstep.2

theorem abs_clip_le (x m : ℚ) (hm : 0 < m) : |clip x (-m) m| ≤ m :=
  abs_le.mpr ⟨lo_le_clip x (-m) m, clip_le_hi x (-m) m (by linarith)⟩

theorem abs_clip_sub_le (x c r : ℚ) (hr : 0 < r) :
    |clip x (c - r) (c + r) - c| ≤ r := by
  rw [abs_le]
  constructor
  · have := lo_le_clip x (c - r) (c + r); linarith
  · have := clip_le_hi x (c - r) (c + r) (by linarith); linarith

/-! ## Claim theorems -/

/-- Claim C5: for every sequence of update steps and all inputs, the
lane-change `ll_prob` satisfies `0 ≤ ll_prob ≤ 1` after every step, starting
from the planner's initial state where it is 1.0. -/
theorem claim_C5 (cfg : LCConfig) (l : List LCInputs) :
    0 ≤ (runLC cfg initLCState l).ll_prob ∧ (runLC cfg initLCState l).ll_prob ≤ 1 :=
  runLC_ll_prob_mem cfg l initLCState (by norm_num [initLCState])
    (by norm_num [initLCState])

/-- Claim C6: on every update step the clamped outputs satisfy
`|safe_desired_curvature_rate| ≤ κ̇_max(v_ego)` and
`|safe_desired_curvature − safe_desired_curvature_prev| ≤ κ̇_max(v_ego)/ΔT`,
where the clamp is taken around the previous `safe_desired_curvature`. -/
theorem claim_C6 (v_ego delay psi cur rate safe_prev : ℚ) :
    |(curvaturePost v_ego delay psi cur rate safe_prev).safe_desired_curvature_rate| ≤
      maxCurvatureRate v_ego ∧
    |(curvaturePost v_ego delay psi cur rate safe_prev).safe_desired_curvature - safe_prev| ≤
      maxCurvatureRate v_ego / DT_MDL := by
  have hm := maxCurvatureRate_pos v_ego
  have hq : 0 < maxCurvatureRate v_ego / DT_MDL :=
    div_pos hm (by norm_num [DT_MDL])
  unfold curvaturePost
  dsimp only
  exact ⟨abs_clip_le _ _ hm, abs_clip_sub_le _ _ _ hq⟩

/-- Claim C7: `solution_invalid_cnt` is incremented exactly when the solution
has a NaN curvature entry or its cost exceeds 20000, else reset to 0; the
published `mpcSolutionValid` is `solution_invalid_cnt < 3`, so three
consecutive failures make it false and one clean frame makes it true again;
on a NaN the solver is reinitialized and the seed curvature set to the
measured curvature. -/
theorem claim_C7 (cnt : ℕ) (seed m cost c1 c2 c3 : ℚ) (hasNan : Bool) :
    ((hasNan = true ∨ cost > 20000) →
      (mpcPostCheck cnt seed hasNan cost m).solution_invalid_cnt = cnt + 1) ∧
    (hasNan = false → ¬ cost > 20000 →
      (mpcPostCheck cnt seed hasNan cost m).solution_invalid_cnt = 0) ∧
    mpcSolutionValid
      ((mpcPostCheck
        ((mpcPostCheck
          ((mpcPostCheck cnt seed true c1 m).solution_invalid_cnt)
          seed true c2 m).solution_invalid_cnt)
        seed true c3 m).solution_invalid_cnt) = false ∧
    (¬ cost > 20000 →
      mpcSolutionValid ((mpcPostCheck cnt seed false cost m).solution_invalid_cnt) = true) ∧
    (hasNan = true →
      (mpcPostCheck cnt seed hasNan cost m).seed_curvature = m ∧
      (mpcPostCheck cnt seed hasNan cost m).reinit = true) := by
  unfold mpcPostCheck mpcSolutionValid
  dsimp only
  refine ⟨?_, ?_, ?_, ?_, ?_⟩
  · rintro (h | h)
    · rw [if_pos (Or.inr h)]
    · rw [if_pos (Or.inl h)]
  · intro h1 h2
    rw [if_neg]
    rintro (h | h)
    · exact h2 h
    · rw [h1] at h; exact Bool.false_ne_true h
  · rw [if_pos (Or.inr rfl), if_pos (Or.inr rfl), if_pos (Or.inr rfl)]
    exact decide_eq_false_iff_not.mpr (by omega)
  · intro h
    rw [if_neg]
    · rfl
    · rintro (hc | hc)
      · exact h hc
      · exact Bool.false_ne_true hc
  · intro h
    subst h
    exact ⟨rfl, rfl⟩

/-- Witness for claim C7: a NaN frame increments the counter from 0 to 1 and
reseeds from the measured curvature; a clean cheap frame resets the counter
and makes `mpcSolutionValid` true. -/
theorem claim_C7_witness :
    (mpcPostCheck 0 (1/2) true 30000 (3/100)).solution_invalid_cnt = 0 + 1 ∧
    (mpcPostCheck 5 (1/2) false 100 (3/100)).solution_invalid_cnt = 0 ∧
    mpcSolutionValid ((mpcPostCheck 7 (1/2) false 100 (3/100)).solution_invalid_cnt) = true ∧
    (mpcPostCheck 0 (1/2) true 30000 (3/100)).seed_curvature = 3/100 := by
  have h := claim_C7 0 (1/2) (3/100) 30000 1 1 1 true
  have h2 := claim_C7 5 (1/2) (3/100) 100 1 1 1 false
  have h3 := claim_C7 7 (1/2) (3/100) 100 1 1 1 false
  exact ⟨h.1 (Or.inl rfl), h2.2.1 rfl (by norm_num), h3.2.2.2.1 (by norm_num),
    (h.2.2.2.2 rfl).1⟩

/-- Claim C9: the emitted `Desire` is the `DESIRES` table lookup: `none`
whenever the state is `off` or `preLaneChange` or the direction is `none`,
and `laneChangeLeft`/`laneChangeRight` exactly when the direction is
left/right and the state is starting or finishing. -/
theorem claim_C9 (d : LaneChangeDirection) (st : LaneChangeState) :
    (DESIRES d st = .laneChangeLeft ↔
      d = .left ∧ (st = .laneChangeStarting ∨ st = .laneChangeFinishing)) ∧
    (DESIRES d st = .laneChangeRight ↔
      d = .right ∧ (st = .laneChangeStarting ∨ st = .laneChangeFinishing)) ∧
    ((st = .off ∨ st = .preLaneChange ∨ d = .none) → DESIRES d st = .none) := by
  cases d <;> cases st <;> simp [DESIRES]

/-- Witness for claim C9 at two concrete table entries. -/
theorem claim_C9_witness :
    DESIRES .none .off = .none ∧ DESIRES .left .laneChangeStarting = .laneChangeLeft :=
  ⟨(claim_C9 .none .off).2.2 (Or.inl rfl),
   (claim_C9 .left .laneChangeStarting).1.mpr ⟨rfl, Or.inl rfl⟩⟩

/-- Claim C10: when the machine leaves `laneChangeFinishing` for `off`
because `ll_prob` exceeds 0.99 without a blinker (and the global abort does
not fire), `lane_change_direction` is left unchanged — so a published frame
can carry `laneChangeState = off` together with a non-none direction. -/
theorem claim_C10 (cfg : LCConfig) (s : LCState) (i : LCInputs)
    (hst : s.state = .laneChangeFinishing)
    (hact : i.active = true)
    (ht : ¬ s.timer > 10)
    (hsat : ¬ (|i.output_scale| ≥ cfg.steerMaxV - 3/20 ∧ s.timer > 1))
    (hlb : i.leftBlinker = false) (hrb : i.rightBlinker = false)
    (hll : s.ll_prob > 47/50) :
    (laneChangeUpdate cfg s i).state = .off ∧
    (laneChangeUpdate cfg s i).direction = s.direction := by
  have hmin : min (s.ll_prob + DT_MDL) 1 > 99/100 :=
    lt_min (by unfold DT_MDL; linarith) (by norm_num)
  unfold laneChangeUpdate lcFinishingStep
  rw [hst, hlb, hrb]
  dsimp only
  rw [if_neg (by rintro (h | h | h); exacts [h hact, ht h, hsat h])]
  dsimp only
  rw [if_neg (by rintro ⟨h, -⟩; simp at h), if_pos hmin]
  exact ⟨rfl, rfl⟩

/-- Witness for claim C10: a concrete finishing-left state leaves `off` with
direction still `left`. -/
theorem claim_C10_witness :
    (laneChangeUpdate cfgBlink finishingLeft quietInputs).state = .off ∧
    (laneChangeUpdate cfgBlink finishingLeft quietInputs).direction = .left := by
  have h := claim_C10 cfgBlink finishingLeft quietInputs rfl rfl
    (by norm_num [finishingLeft])
    (by norm_num [finishingLeft, quietInputs, blinkLeft20, cfgBlink])
    rfl rfl (by norm_num [finishingLeft])
  exact ⟨h.1, h.2⟩

/-- Claim C1 counterexample: with `laneless_mode = 0` (and `use_lanelines`
false) the arbiter takes the `laneless_mode == 0` branch (line 282) before
ever evaluating the lead-vehicle branch, so even with a close decelerating
lead and a 3° steering divergence it chooses the lane path and never sets
`at_stopping` or the 60-tick timer — contradicting the claimed laneless
kick-in at `laneless_mode = 0`. -/
theorem claim_C1_counterexample :
    (arbiterStep initArbState leadInputsMode0).1 = .lane ∧
    (arbiterStep initArbState leadInputsMode0).2.laneless_mode_status = false ∧
    (arbiterStep initArbState leadInputsMode0).2.laneless_mode_at_stopping = false ∧
    (arbiterStep initArbState leadInputsMode0).2.laneless_mode_at_stopping_timer = 0 := by
  with_unfolding_all decide

/-- Claim C1 (amended): with `use_lanelines` false and `laneless_mode ≠ 0`
(here 1), the stopping-lead scenario makes the arbiter choose the laneless
raw path and set `at_stopping := true`, `stopping_ticks := 60` (decremented
once at the end of the same step, hence 59 observable); after the countdown
reaches 0 — or as soon as `v_ego < 0.5` — a step whose lead branch does not
fire returns to the lane path and clears `at_stopping`. -/
theorem claim_C1 :
    (arbiterStep initArbState leadInputsMode1).1 = .raw ∧
    (arbiterStep initArbState leadInputsMode1).2.laneless_mode_status = true ∧
    arbAfterKick.laneless_mode_at_stopping = true ∧
    arbAfterKick.laneless_mode_at_stopping_timer = 59 ∧
    arbAfterCountdown.laneless_mode_at_stopping = true ∧
    arbAfterCountdown.laneless_mode_at_stopping_timer = 0 ∧
    (arbiterStep arbAfterCountdown slowNoLead).1 = .lane ∧
    (arbiterStep arbAfterCountdown slowNoLead).2.laneless_mode_at_stopping = false := by
  with_unfolding_all decide

/-- Claim C2 counterexample: the spec reads the steering condition as
`|desired − measured| > 2`, but the code computes
`abs(desired) − abs(measured) > 2`.  At `desired = 0°, measured = 3°` (all
other lead-branch conditions satisfied, `laneless_mode = 1`) the spec's
condition holds yet the lead branch is not taken: `at_stopping` stays
false. -/
theorem claim_C2_counterexample :
    |divergeClaimOnly.steeringAngleDesiredDeg - divergeClaimOnly.steeringAngleDeg| > 2 ∧
    divergeClaimOnly.dRel < 25 ∧ divergeClaimOnly.vRel < 0 ∧
    divergeClaimOnly.lane_change_state = .off ∧
    divergeClaimOnly.use_lanelines = false ∧ divergeClaimOnly.laneless_mode = 1 ∧
    (arbiterStep initArbState divergeClaimOnly).2.laneless_mode_at_stopping = false := by
  with_unfolding_all decide

/-- Claim C2 (amended): when the lead branch is reachable (`use_lanelines`
false, `laneless_mode ≠ 0`) and `at_stopping` is not already set, the
arbiter takes the lead branch (observable as `at_stopping` becoming true)
exactly when `dRel < 25` and (`vRel < 0` or (`vRel ≥ 0` and `v_ego < 5`))
and `abs(steeringAngleDesiredDeg) − abs(steeringAngleDeg) > 2` (difference
of magnitudes, not magnitude of difference) and the lane-change state is
off. -/
theorem claim_C2 (s : ArbState) (i : ArbInputs)
    (hu : i.use_lanelines = false) (hm : i.laneless_mode ≠ 0)
    (hstop : s.laneless_mode_at_stopping = false) :
    (arbiterStep s i).2.laneless_mode_at_stopping = true ↔
      (i.dRel < 25 ∧ (i.vRel < 0 ∨ (i.vRel ≥ 0 ∧ i.v_ego < 5)) ∧
       |i.steeringAngleDesiredDeg| - |i.steeringAngleDeg| > 2 ∧
       i.lane_change_state = .off) := by
  unfold arbiterStep
  dsimp only
  rw [if_neg (by rw [hu]; exact Bool.false_ne_true)]
  rw [if_neg hm]
  by_cases hlead : leadBranchCond i
  · rw [if_pos hlead]
    unfold leadBranchCond at hlead
    exact iff_of_true rfl hlead
  · rw [if_neg hlead]
    rw [if_neg (by rintro ⟨h, -⟩; rw [hstop] at h; exact Bool.false_ne_true h)]
    unfold leadBranchCond at hlead
    split_ifs <;> (dsimp only; rw [hstop]; exact iff_of_false Bool.false_ne_true hlead)

/-- Witness for claim C2: a stopped-lead case (`vRel ≥ 0`, low ego speed)
with magnitude divergence 4° sets `at_stopping`. -/
theorem claim_C2_witness :
    (arbiterStep initArbState stoppedLeadInputs).2.laneless_mode_at_stopping = true := by
  have h := claim_C2 initArbState stoppedLeadInputs rfl (by with_unfolding_all decide) rfl
  exact h.mpr (by with_unfolding_all decide)

/-- Claim C3 counterexample: one frame after the blinker scenario the state
is `preLaneChange` with `ll_prob = 1`, but the direction is still `none` and
`wait_timer = 0` — not `left` and `0.05` as claimed (the direction and wait
timer are only updated inside the `preLaneChange` branch, which runs from
the next frame on). -/
theorem claim_C3_counterexample :
    (laneChangeUpdate cfgBlink initLCState blinkLeft20).state = .preLaneChange ∧
    (laneChangeUpdate cfgBlink initLCState blinkLeft20).ll_prob = 1 ∧
    (laneChangeUpdate cfgBlink initLCState blinkLeft20).direction = .none ∧
    (laneChangeUpdate cfgBlink initLCState blinkLeft20).wait_timer = 0 ∧
    ¬ ((laneChangeUpdate cfgBlink initLCState blinkLeft20).direction = .left ∧
       (laneChangeUpdate cfgBlink initLCState blinkLeft20).wait_timer = 1/20) := by
  with_unfolding_all decide

/-- Claim C3 (amended): after one frame the state is `preLaneChange` with
`ll_prob = 1.0`, direction still `none` and `wait_timer = 0`; the claimed
`direction = left` and `wait_timer = 0.05` hold one frame later. -/
theorem claim_C3 :
    (laneChangeUpdate cfgBlink initLCState blinkLeft20).state = .preLaneChange ∧
    (laneChangeUpdate cfgBlink initLCState blinkLeft20).ll_prob = 1 ∧
    (laneChangeUpdate cfgBlink initLCState blinkLeft20).direction = .none ∧
    (laneChangeUpdate cfgBlink initLCState blinkLeft20).wait_timer = 0 ∧
    (laneChangeUpdate cfgBlink (laneChangeUpdate cfgBlink initLCState blinkLeft20)
      blinkLeft20).state = .preLaneChange ∧
    (laneChangeUpdate cfgBlink (laneChangeUpdate cfgBlink initLCState blinkLeft20)
      blinkLeft20).direction = .left ∧
    (laneChangeUpdate cfgBlink (laneChangeUpdate cfgBlink initLCState blinkLeft20)
      blinkLeft20).wait_timer = 1/20 := by
  with_unfolding_all decide

/-- Claim C4 counterexample: ten fade frames at 16 m/s leave
`ll_prob = 1 − 10·0.17·0.05 = 0.915 = 183/200`, not the claimed `0.15`
(the spec's own formula `max(1 − 0.17·10·0.05, 0)` evaluates to 0.915). -/
theorem claim_C4_counterexample :
    (runLC cfgBlink initLCState (List.replicate 16 blinkLeft16)).state =
      .laneChangeStarting ∧
    (runLC cfgBlink initLCState (List.replicate 16 blinkLeft16)).ll_prob = 183/200 ∧
    ¬ (runLC cfgBlink initLCState (List.replicate 16 blinkLeft16)).ll_prob = 3/20 := by
  with_unfolding_all decide

/-- Claim C4 (amended): from the blinker entry with `auto_delay_s = 0.2`, no
blindspot and no torque, 5 frames after entering `preLaneChange` (6 frames
total) the state is `laneChangeStarting`; after 10 further frames at
constant `v_ego = 16` the value of `ll_prob` equals
`max(1 − 0.17·10·0.05, 0) = 0.915`. -/
theorem claim_C4 :
    (runLC cfgBlink initLCState (List.replicate 6 blinkLeft16)).state =
      .laneChangeStarting ∧
    (runLC cfgBlink initLCState (List.replicate 16 blinkLeft16)).state =
      .laneChangeStarting ∧
    (runLC cfgBlink initLCState (List.replicate 16 blinkLeft16)).ll_prob =
      max (1 - (17/100) * 10 * (1/20)) 0 := by
  with_unfolding_all decide

/-- Claim C8 counterexample: when the 1 Hz poll fires it refreshes
`laneless_mode` and `use_lanelines` from the store, but `min_speed` keeps
the import-time value `kphToMs 30` and does not pick up the store's new
`OpkrLaneChangeSpeed = 20`. -/
theorem claim_C8_counterexample :
    (paramPollStep store1 pollReady).laneless_mode = store1.lanelessMode ∧
    (paramPollStep store1 pollReady).use_lanelines = !store1.endToEndToggle ∧
    (paramPollStep store1 pollReady).min_speed ≠ kphToMs store1.opkrLaneChangeSpeed ∧
    (paramPollStep store1 pollReady).min_speed = kphToMs store0.opkrLaneChangeSpeed := by
  with_unfolding_all decide

/-- Claim C8 (amended): the ≈1 Hz poll refreshes only `EndToEndToggle`
(into `use_lanelines`) and `LanelessMode`; `OpkrLaneChangeSpeed` is read
once at import into the module constant `LANE_CHANGE_SPEED_MIN` and is
never re-read: `min_speed` is unchanged by every poll step. -/
theorem claim_C8 (p : ParamStore) (s : PollState) :
    (paramPollStep p s).min_speed = s.min_speed ∧
    (s.second + DT_MDL > 1 →
      (paramPollStep p s).laneless_mode = p.lanelessMode ∧
      (paramPollStep p s).use_lanelines = !p.endToEndToggle) := by
  unfold paramPollStep
  dsimp only
  split_ifs with h
  · exact ⟨rfl, fun _ => ⟨rfl, rfl⟩⟩
  · exact ⟨rfl, fun hc => absurd hc h⟩

/-- Witness for claim C8: at a firing poll boundary the mode is refreshed
while `min_speed` keeps its startup value. -/
theorem claim_C8_witness :
    (paramPollStep store1 pollReady).min_speed = kphToMs 30 ∧
    (paramPollStep store1 pollReady).laneless_mode = 2 := by
  have h := claim_C8 store1 pollReady
  exact ⟨h.1.trans (by with_unfolding_all decide),
    ((h.2 (by with_unfolding_all decide)).1).trans (by with_unfolding_all decide)⟩
